import Mathlib

/-!
Verification of the tool-dispatch orchestration engine of the
`huggingface-mcp-hakerton` repository.

Shallow embedding of:
  * src/mcp_helper.py  — MCPClient.get_tools (dynamic Pydantic argument model
    compilation, tool wrapper construction);
  * src/agent_core.py  — LangGraphAgentExecutor (server connection loop in
    `initialize`, `execute_tools`, `should_continue`, the LangGraph
    agent/tools cycle, and `invoke` with its persistent conversation history).

Python runtime values are modelled by the inductive `Value`; machine floats
never undergo arithmetic in the claims, so the numeric content of a float is
carried as an integer.  External effects (the Gemini decision client, the MCP
session's call_tool RPC) are parameters of the embedded functions.
-/

/-- A Python runtime value as it flows through the agent: tool arguments,
tool outputs, schema defaults.  `float` carries only integer content because
no verified path performs float arithmetic. -/
inductive Value where
  | none : Value
  | str : String → Value
  | int : Int → Value
  | float : Int → Value
  | bool : Bool → Value
  | list : List Value → Value
  | obj : List (String × Value) → Value

mutual
/-- Python repr of a value, used by str() inside containers. -/
def pyRepr : Value → String
  | Value.none => "None"
  | Value.str s => "'" ++ s ++ "'"
  | Value.int n => toString n
  | Value.float n => toString n ++ ".0"
  | Value.bool b => if b then "True" else "False"
  | Value.list xs => "[" ++ pyReprList xs ++ "]"
  | Value.obj kvs => "\x7b" ++ pyReprObj kvs ++ "\x7d"

def pyReprList : List Value → String
  | [] => ""
  | [v] => pyRepr v
  | v :: w :: rest => pyRepr v ++ ", " ++ pyReprList (w :: rest)

def pyReprObj : List (String × Value) → String
  | [] => ""
  | [(k, v)] => "'" ++ k ++ "': " ++ pyRepr v
  | (k, v) :: kv :: rest => "'" ++ k ++ "': " ++ pyRepr v ++ ", " ++ pyReprObj (kv :: rest)
end

/-- Python str() of a value: identity on strings, repr-based otherwise.
agent_core.py line 199 applies str() to every tool output before recording
it (`content=str(output)`). -/
def pyStr : Value → String
  | Value.str s => s
  | v => pyRepr v

/-- A tool call requested by the decision client: langchain dict
`\x7b'name': ..., 'args': ..., 'id': ...\x7d` read in execute_tools
(agent_core.py lines 154-156). -/
structure ToolCall where
  name : String
  args : List (String × Value)
  id : String

/-- A message of the conversation history (langchain SystemMessage,
HumanMessage, AIMessage with tool_calls, ToolMessage). -/
inductive Message where
  | system : String → Message
  | human : String → Message
  | ai : String → List ToolCall → Message
  | tool : String → String → Value → Message

/-- The tool_calls attribute consulted by should_continue and execute_tools;
only an AIMessage carries tool calls. -/
def messageToolCalls : Message → List ToolCall
  | Message.ai _ cs => cs
  | _ => []

/-- The tool_call_id of a ToolMessage, if the message is one. -/
def msgCallId : Message → Option String
  | Message.tool cid _ _ => some cid
  | _ => Option.none

/-- The content attribute of a message (string form). -/
def messageContent : Message → String
  | Message.system c => c
  | Message.human c => c
  | Message.ai c _ => c
  | Message.tool _ _ v => pyStr v

/-- Response of the decision client (llm.ainvoke in call_model,
agent_core.py line 145): an AIMessage split into its content and its
tool_calls. -/
structure AIResponse where
  content : String
  tool_calls : List ToolCall

/-- The Python type a JSON-schema type string is mapped to by
MCPClient.get_tools (mcp_helper.py lines 49-60). -/
inductive PyType where
  | str : PyType
  | int : PyType
  | float : PyType
  | bool : PyType
  | list : PyType
  | dict : PyType
deriving DecidableEq

/-- mcp_helper.py lines 49-60: field_type selects the python_type,
defaulting to str for unknown kinds. -/
def pythonTypeFor : String → PyType
  | "integer" => PyType.int
  | "number" => PyType.float
  | "boolean" => PyType.bool
  | "array" => PyType.list
  | "object" => PyType.dict
  | _ => PyType.str

/-- One property record of a worker's declared inputSchema: its optional
"type" entry (field_def.get("type", "string")) and any declared "default"
entry, which mcp_helper.py never reads (comment at lines 62-63). -/
structure FieldDef where
  type : Option String
  default : Option Value

/-- One compiled entry of the dynamic Pydantic argument model:
`(python_type, ...)` for a required field (no default), `(python_type, None)`
for an optional one (mcp_helper.py lines 64-67). -/
structure CompiledField where
  name : String
  type : PyType
  required : Bool
  default : Option Value

/-- mcp_helper.py lines 47-67: compile the declared properties into the
fields of the dynamic argument model.  A name listed in `required` becomes a
required field with no default; every other name becomes optional with
default None — any schema-declared default is ignored. -/
def compileFields (properties : List (String × FieldDef)) (required : List String) :
    List CompiledField :=
  properties.map fun p =>
    let pt := pythonTypeFor (p.2.type.getD "string")
    if p.1 ∈ required then
      { name := p.1, type := pt, required := true, default := Option.none }
    else
      { name := p.1, type := pt, required := false, default := some Value.none }

/-- A langchain StructuredTool as built by MCPClient.get_tools
(mcp_helper.py lines 80-86): name, description, compiled argument schema and
the async wrapper coroutine.  A coroutine result of `Except.error e` models a
raised exception whose str() is `e`. -/
structure LCTool where
  name : String
  description : String
  args_schema : List CompiledField
  coroutine : List (String × Value) → Except String Value

/-- A raw tool record returned by the worker's list_tools response. -/
structure ToolInfo where
  name : String
  description : String
  properties : List (String × FieldDef)
  required : List String

/-- MCPClient.get_tools (mcp_helper.py lines 34-90): for every discovered
tool, compile the argument model and build a StructuredTool whose coroutine
is `make_tool_wrapper`, forwarding its entire kwargs mapping unchanged to
session.call_tool (lines 75-78).  The session's call_tool RPC is the
parameter `call_tool`. -/
def get_tools (call_tool : String → List (String × Value) → Except String Value)
    (infos : List ToolInfo) : List LCTool :=
  infos.map fun info =>
    { name := info.name
      description := info.description
      args_schema := compileFields info.properties info.required
      coroutine := fun kwargs => call_tool info.name kwargs }

/-- The per-server connection loop of LangGraphAgentExecutor.initialize
(agent_core.py lines 96-108): each configured server either yields its tool
list or fails (`Except.error` models the caught exception); a failing server
is logged and skipped, the others' tools are concatenated in order into
self.tools. -/
def gatherTools : List (Except String (List LCTool)) → List LCTool
  | [] => []
  | Except.ok ts :: rest => ts ++ gatherTools rest
  | Except.error _ :: rest => gatherTools rest

/-- agent_core.py line 184: `next((t for t in self.tools if t.name == tool_name), None)` —
resolve a tool name to the first registered tool carrying it. -/
def resolveTool (tools : List LCTool) (name : String) : Option LCTool :=
  tools.find? fun t => t.name == name

/-- The body of the per-call loop of LangGraphAgentExecutor.execute_tools
(agent_core.py lines 153-199): resolve the name; invoke the wrapper
coroutine with the call's args; an unresolved name yields the not-found
error string, a raised exception yields the execution error string; the
result is recorded as a ToolMessage whose content is str(output) and whose
tool_call_id is the call's id. -/
def executeToolCall (tools : List LCTool) (tc : ToolCall) : Message :=
  let output : Value :=
    match resolveTool tools tc.name with
    | some t =>
        match t.coroutine tc.args with
        | Except.ok v => v
        | Except.error e => Value.str ("Error executing tool " ++ tc.name ++ ": " ++ e)
    | Option.none => Value.str ("Error: Tool " ++ tc.name ++ " not found.")
  Message.tool tc.id tc.name (Value.str (pyStr output))

/-- LangGraphAgentExecutor.execute_tools (agent_core.py lines 148-201):
read the last message's tool_calls and produce one ToolMessage per call, in
order. -/
def execute_tools (tools : List LCTool) (last_message : Message) : List Message :=
  (messageToolCalls last_message).map (executeToolCall tools)

/-- LangGraphAgentExecutor.should_continue (agent_core.py lines 203-208):
route to the tools node exactly when the last message carries tool calls. -/
def should_continue (last_message : Message) : String :=
  if (messageToolCalls last_message).isEmpty then "end" else "continue"

/-- The compiled LangGraph cycle (agent_core.py lines 121-139): agent node
(call_model appends the client's AIMessage), conditional edge via
should_continue (continue → tools, end → END), tools node (execute_tools
appends its results), edge tools → agent.  `llm` is the decision client;
`fuel` is the recursion limit, exhaustion modelling the GraphRecursionError
raised by langgraph. -/
def runGraph (llm : List Message → AIResponse) (tools : List LCTool) :
    Nat → List Message → Option (List Message)
  | 0, _ => Option.none
  | fuel + 1, messages =>
      let resp := llm messages
      let aiMsg := Message.ai resp.content resp.tool_calls
      if should_continue aiMsg = "continue" then
        runGraph llm tools fuel ((messages ++ [aiMsg]) ++ execute_tools tools aiMsg)
      else
        some (messages ++ [aiMsg])

/-- LangGraphAgentExecutor.invoke (agent_core.py lines 210-255): append the
user message to the conversation history, run the graph on a copy of the
full history, then extend the history with exactly the messages the run
added (`final_state["messages"][len(self.conversation_history):]`) and
return the last message's content; on an exception (modelled by fuel
exhaustion) the history keeps only the user message and an error string is
returned.  Result: (new conversation history, output text). -/
def invoke (llm : List Message → AIResponse) (tools : List LCTool) (fuel : Nat)
    (conversation_history : List Message) (user_input : String) :
    List Message × String :=
  let hist := conversation_history ++ [Message.human user_input]
  match runGraph llm tools fuel hist with
  | some finalMessages =>
      (hist ++ finalMessages.drop hist.length,
        messageContent ((finalMessages.getLast?).getD (Message.ai "" [])))
  | Option.none => (hist, "An error occurred: graph recursion limit reached")

/-- Error raised by argument validation. -/
inductive ValidationError where
  | missingRequired : String → ValidationError
  | wrongKind : String → ValidationError
deriving DecidableEq

/-- Parse a non-empty all-digit string to a number; any other string is not
an unambiguous numeric string. -/
def parseNumericString (s : String) : Option Nat :=
  match s.data with
  | [] => Option.none
  | c :: cs =>
      if (c :: cs).all Char.isDigit then
        some ((c :: cs).foldl (fun acc d => acc * 10 + (d.toNat - 48)) 0)
      else Option.none

/-- Whether a value already has exactly the declared kind (no coercion). -/
def kindMatches : PyType → Value → Bool
  | PyType.str, Value.str _ => true
  | PyType.int, Value.int _ => true
  | PyType.float, Value.float _ => true
  | PyType.bool, Value.bool _ => true
  | PyType.list, Value.list _ => true
  | PyType.dict, Value.obj _ => true
  | _, _ => false

/-- Modelled from the spec: coercion of a present argument to its declared
kind, as performed by the Pydantic argument model that MCPClient.get_tools
creates with create_model (Pydantic itself is an external library, not part
of src/).  A value of the declared kind is accepted; an unambiguous numeric
string coerces to a number; an integer widens to float; everything else is
rejected (spec §4.2). -/
def coerce : PyType → Value → Option Value
  | PyType.str, Value.str s => some (Value.str s)
  | PyType.int, Value.int n => some (Value.int n)
  | PyType.int, Value.str s => (parseNumericString s).map fun n => Value.int (Int.ofNat n)
  | PyType.float, Value.float x => some (Value.float x)
  | PyType.float, Value.int n => some (Value.float n)
  | PyType.float, Value.str s => (parseNumericString s).map fun n => Value.float (Int.ofNat n)
  | PyType.bool, Value.bool b => some (Value.bool b)
  | PyType.list, Value.list xs => some (Value.list xs)
  | PyType.dict, Value.obj kvs => some (Value.obj kvs)
  | _, _ => Option.none

/-- Look an argument up by name in the supplied mapping. -/
def lookupArg (args : List (String × Value)) (name : String) : Option Value :=
  (args.find? fun kv => kv.1 == name).map fun kv => kv.2

/-- Modelled from the spec: validation of an argument mapping against the
compiled fields, as the Pydantic model built in MCPClient.get_tools would
perform it — every required field must be present, every present field must
coerce to its declared kind, an absent optional field takes its default
None (spec §4.2). -/
def validateFields : List CompiledField → List (String × Value) →
    Except ValidationError (List (String × Value))
  | [], _ => Except.ok []
  | f :: rest, args =>
      match lookupArg args f.name with
      | some v =>
          match coerce f.type v with
          | some v2 => (validateFields rest args).map fun tail => (f.name, v2) :: tail
          | Option.none => Except.error (ValidationError.wrongKind f.name)
      | Option.none =>
          if f.required then Except.error (ValidationError.missingRequired f.name)
          else (validateFields rest args).map fun tail => (f.name, Value.none) :: tail

/-! Concrete fixtures used by witness and counterexample theorems. -/

/-- A deterministic stand-in for the MCP session's call_tool RPC. -/
def fxCallTool (name : String) (args : List (String × Value)) : Except String Value :=
  Except.ok (Value.obj [("tool", Value.str name), ("argc", Value.int args.length)])

/-- A discovered tool record with one required integer parameter. -/
def fxInfo1 : ToolInfo :=
  { name := "get_open_ports"
    description := "List listening ports"
    properties := [("count", { type := some "integer", default := Option.none })]
    required := ["count"] }

/-- Tools compiled from the fixture worker. -/
def fxTools : List LCTool := get_tools fxCallTool [fxInfo1]

/-- A tool whose invocation succeeds. -/
def fxAlpha : LCTool :=
  { name := "alpha", description := "", args_schema := []
    coroutine := fun _ => Except.ok (Value.str "alpha-ok") }

/-- A tool whose invocation raises. -/
def fxBeta : LCTool :=
  { name := "beta", description := "", args_schema := []
    coroutine := fun _ => Except.error "boom" }

/-- First tool registered under the name dup. -/
def fxDup1 : LCTool :=
  { name := "dup", description := "first", args_schema := []
    coroutine := fun _ => Except.ok (Value.str "one") }

/-- Second tool registered under the same name dup. -/
def fxDup2 : LCTool :=
  { name := "dup", description := "second", args_schema := []
    coroutine := fun _ => Except.ok (Value.str "two") }

/-- A call to fxAlpha. -/
def fxCallA : ToolCall := { name := "alpha", args := [], id := "call-a" }

/-- A call to fxBeta. -/
def fxCallB : ToolCall := { name := "beta", args := [], id := "call-b" }

/-- A decision client that requests one tool call on the first turn and then
answers. -/
def fxLLM (msgs : List Message) : AIResponse :=
  if msgs.length ≤ 1 then { content := "", tool_calls := [fxCallA] }
  else { content := "done", tool_calls := [] }

/-- The StructuredTool get_tools builds from fxInfo1 over fxCallTool. -/
def fxWrapped : LCTool :=
  { name := fxInfo1.name
    description := fxInfo1.description
    args_schema := compileFields fxInfo1.properties fxInfo1.required
    coroutine := fun kwargs => fxCallTool fxInfo1.name kwargs }

/-- A call to the wrapped fixture tool with no arguments. -/
def fxCallC : ToolCall := { name := "get_open_ports", args := [], id := "call-c" }

/-- An argument mapping carrying one declared and one undeclared name. -/
def fxArgs : List (String × Value) :=
  [("count", Value.int 5), ("verbose", Value.bool true)]

/-! Helper lemmas shared by the claim theorems. -/

theorem executeToolCall_eq_tool (tools : List LCTool) (tc : ToolCall) :
    ∃ s, executeToolCall tools tc = Message.tool tc.id tc.name (Value.str s) :=
  ⟨_, rfl⟩

theorem executeToolCall_callId (tools : List LCTool) (tc : ToolCall) :
    msgCallId (executeToolCall tools tc) = some tc.id :=
  rfl

theorem execute_tools_mem_tool (tools : List LCTool) (lm : Message) (m : Message)
    (hm : m ∈ execute_tools tools lm) :
    ∃ cid nm s, m = Message.tool cid nm (Value.str s) := by
  simp only [execute_tools, List.mem_map] at hm
  obtain ⟨tc, _, rfl⟩ := hm
  obtain ⟨s, hs⟩ := executeToolCall_eq_tool tools tc
  exact ⟨tc.id, tc.name, s, hs⟩

theorem should_continue_of_calls (c : String) (calls : List ToolCall) (h : calls ≠ []) :
    should_continue (Message.ai c calls) = "continue" := by
  cases calls with
  | nil => exact absurd rfl h
  | cons a as => rfl

theorem resolveTool_append_of_some (ts1 ts2 : List LCTool) (nm : String) (t : LCTool)
    (h : resolveTool ts1 nm = some t) :
    resolveTool (ts1 ++ ts2) nm = some t := by
  induction ts1 with
  | nil => simp [resolveTool] at h
  | cons a as ih =>
      by_cases ha : (a.name == nm) = true
      · rw [resolveTool, List.cons_append,
          List.find?_cons_of_pos (p := fun (u : LCTool) => u.name == nm) _ ha]
        rw [resolveTool, List.find?_cons_of_pos (p := fun (u : LCTool) => u.name == nm) _ ha] at h
        exact h
      · rw [resolveTool, List.cons_append,
          List.find?_cons_of_neg (p := fun (u : LCTool) => u.name == nm) _ (by simpa using ha)]
        rw [resolveTool,
          List.find?_cons_of_neg (p := fun (u : LCTool) => u.name == nm) _ (by simpa using ha)] at h
        exact ih h

theorem resolveTool_none_of_names (tools : List LCTool) (nm : String)
    (h : ∀ t ∈ tools, t.name ≠ nm) :
    resolveTool tools nm = Option.none := by
  rw [resolveTool, List.find?_eq_none]
  intro t ht
  simpa using h t ht

theorem runGraph_suffix (llm : List Message → AIResponse) (tools : List LCTool) :
    ∀ (fuel : Nat) (msgs final : List Message),
      runGraph llm tools fuel msgs = some final →
      ∃ suffix, final = msgs ++ suffix ∧
        ∀ m ∈ suffix,
          (∃ c cs, m = Message.ai c cs) ∨ ∃ cid nm v, m = Message.tool cid nm v := by
  intro fuel
  induction fuel with
  | zero => intro msgs final h; simp [runGraph] at h
  | succ n ih =>
      intro msgs final h
      simp only [runGraph] at h
      by_cases hc :
          should_continue (Message.ai (llm msgs).content (llm msgs).tool_calls) = "continue"
      · rw [if_pos hc] at h
        obtain ⟨suffix, hfin, hmem⟩ := ih _ _ h
        refine ⟨Message.ai (llm msgs).content (llm msgs).tool_calls ::
            (execute_tools tools (Message.ai (llm msgs).content (llm msgs).tool_calls)
              ++ suffix), ?_, ?_⟩
        · simp [hfin]
        · intro m hm
          rcases List.mem_cons.mp hm with rfl | hm2
          · exact Or.inl ⟨_, _, rfl⟩
          rcases List.mem_append.mp hm2 with hm3 | hm3
          · obtain ⟨cid, nm2, s, rfl⟩ := execute_tools_mem_tool _ _ _ hm3
            exact Or.inr ⟨_, _, _, rfl⟩
          · exact hmem m hm3
      · rw [if_neg hc] at h
        refine ⟨[Message.ai (llm msgs).content (llm msgs).tool_calls], ?_, ?_⟩
        · simpa using (Option.some_inj.mp h).symm
        · intro m hm
          rcases List.mem_singleton.mp hm with rfl
          exact Or.inl ⟨_, _, rfl⟩

/-- C1: whenever the decision client's response carries a non-empty list of
tool calls, the tools node appends exactly one ToolMessage per call, in the
same order and carrying the call's id, and the graph re-enters the agent
node only on the history already extended by all those results. -/
theorem claim_C1_results_before_requery (llm : List Message → AIResponse)
    (tools : List LCTool) (fuel : Nat) (msgs : List Message)
    (hcalls : (llm msgs).tool_calls ≠ []) :
    (runGraph llm tools (fuel + 1) msgs
      = runGraph llm tools fuel
          (msgs ++ Message.ai (llm msgs).content (llm msgs).tool_calls
            :: execute_tools tools (Message.ai (llm msgs).content (llm msgs).tool_calls)))
    ∧ (execute_tools tools (Message.ai (llm msgs).content (llm msgs).tool_calls)).length
        = (llm msgs).tool_calls.length
    ∧ ∀ i : Nat,
        ((execute_tools tools
            (Message.ai (llm msgs).content (llm msgs).tool_calls))[i]?).bind msgCallId
          = ((llm msgs).tool_calls[i]?).map ToolCall.id := by
  refine ⟨?_, ?_, ?_⟩
  · simp only [runGraph]
    rw [if_pos (should_continue_of_calls _ _ hcalls)]
    simp
  · simp [execute_tools, messageToolCalls]
  · intro i
    simp only [execute_tools, messageToolCalls, List.getElem?_map]
    cases h : ((llm msgs).tool_calls)[i]? with
    | none => rfl
    | some tc => simp [executeToolCall_callId]

/-- C1 witness: a concrete one-call turn. -/
theorem claim_C1_results_before_requery_witness :
    (runGraph fxLLM [fxAlpha] (1 + 1) [Message.human "hi"]
      = runGraph fxLLM [fxAlpha] 1
          ([Message.human "hi"]
            ++ Message.ai (fxLLM [Message.human "hi"]).content
                (fxLLM [Message.human "hi"]).tool_calls
            :: execute_tools [fxAlpha]
                (Message.ai (fxLLM [Message.human "hi"]).content
                  (fxLLM [Message.human "hi"]).tool_calls)))
    ∧ (execute_tools [fxAlpha]
          (Message.ai (fxLLM [Message.human "hi"]).content
            (fxLLM [Message.human "hi"]).tool_calls)).length
        = (fxLLM [Message.human "hi"]).tool_calls.length
    ∧ ∀ i : Nat,
        ((execute_tools [fxAlpha]
            (Message.ai (fxLLM [Message.human "hi"]).content
              (fxLLM [Message.human "hi"]).tool_calls))[i]?).bind msgCallId
          = ((fxLLM [Message.human "hi"]).tool_calls[i]?).map ToolCall.id :=
  claim_C1_results_before_requery fxLLM [fxAlpha] 1 [Message.human "hi"]
    (by simp [fxLLM])

/-- C5: a ToolCall whose name matches no registered tool yields the
synthesized not-found error ToolMessage — no worker is invoked and the
(total) executor returns normally. -/
theorem claim_C5_unknown_tool_error_result (tools : List LCTool) (tc : ToolCall)
    (c : String) (h : ∀ t ∈ tools, t.name ≠ tc.name) :
    executeToolCall tools tc
      = Message.tool tc.id tc.name
          (Value.str ("Error: Tool " ++ tc.name ++ " not found."))
    ∧ execute_tools tools (Message.ai c [tc])
      = [Message.tool tc.id tc.name
          (Value.str ("Error: Tool " ++ tc.name ++ " not found."))] := by
  have hres := resolveTool_none_of_names tools tc.name h
  constructor
  · simp [executeToolCall, hres, pyStr]
  · simp [execute_tools, messageToolCalls, executeToolCall, hres, pyStr]

/-- C5 witness: calling an unregistered name against the fixture registry. -/
theorem claim_C5_unknown_tool_error_result_witness :
    (executeToolCall [fxAlpha] { name := "ghost", args := [], id := "call-g" }
      = Message.tool "call-g" "ghost"
          (Value.str ("Error: Tool " ++ "ghost" ++ " not found.")))
    ∧ execute_tools [fxAlpha]
        (Message.ai "" [{ name := "ghost", args := [], id := "call-g" }])
      = [Message.tool "call-g" "ghost"
          (Value.str ("Error: Tool " ++ "ghost" ++ " not found."))] :=
  claim_C5_unknown_tool_error_result [fxAlpha]
    { name := "ghost", args := [], id := "call-g" } ""
    (by intro t ht; simp [fxAlpha] at ht; subst ht; simp [fxAlpha])

/-- C7: a worker whose connection attempt fails contributes zero tools —
the gathered catalogue equals the one gathered from the remaining workers,
and initialization completes (gatherTools is total). -/
theorem claim_C7_failed_worker_skipped (pre post : List (Except String (List LCTool)))
    (e : String) :
    gatherTools (pre ++ Except.error e :: post) = gatherTools (pre ++ post) := by
  induction pre with
  | nil => simp [gatherTools]
  | cons s rest ih =>
      cases s with
      | ok ts => simp [gatherTools, ih]
      | error msg => simp [gatherTools, ih]

/-- C2 counterexample: registering two workers that both declare the tool
name dup does not fail — the flat catalogue afterwards holds both entries
(no DuplicateToolError exists anywhere in the code), while resolution still
finds the first-registered one. -/
theorem claim_C2_duplicate_counterexample :
    (gatherTools [Except.ok [fxDup1], Except.ok [fxDup2]]).map LCTool.name
        = ["dup", "dup"]
    ∧ (gatherTools [Except.ok [fxDup1], Except.ok [fxDup2]]).length = 2
    ∧ resolveTool (gatherTools [Except.ok [fxDup1], Except.ok [fxDup2]]) "dup"
        = some fxDup1 :=
  ⟨rfl, rfl, rfl⟩

/-- C2 amended: a duplicate tool name never makes registration fail and is
never overwritten — both same-named descriptors are kept in registration
order in the flat catalogue, and resolving the name always yields the
first-registered tool. -/
theorem claim_C2_first_registration_wins (ts1 ts2 : List LCTool) (nm : String)
    (t : LCTool) (h : resolveTool ts1 nm = some t) :
    gatherTools [Except.ok ts1, Except.ok ts2] = ts1 ++ ts2
    ∧ resolveTool (gatherTools [Except.ok ts1, Except.ok ts2]) nm = some t := by
  have hg : gatherTools [Except.ok ts1, Except.ok ts2] = ts1 ++ ts2 := by
    simp [gatherTools]
  exact ⟨hg, by rw [hg]; exact resolveTool_append_of_some ts1 ts2 nm t h⟩

/-- C2 witness: the colliding fixture workers. -/
theorem claim_C2_first_registration_wins_witness :
    gatherTools [Except.ok [fxDup1], Except.ok [fxDup2]] = [fxDup1] ++ [fxDup2]
    ∧ resolveTool (gatherTools [Except.ok [fxDup1], Except.ok [fxDup2]]) "dup"
        = some fxDup1 :=
  claim_C2_first_registration_wins [fxDup1] [fxDup2] "dup" fxDup1 rfl

/-- C3: the executor invokes the stored wrapper coroutine directly with the
client-supplied argument mapping, and the wrapper forwards that mapping
verbatim to the worker's call_tool — so an argument whose name is declared
nowhere in the tool's compiled schema is neither rejected nor dropped. -/
theorem claim_C3_extra_args_passed_through
    (call_tool : String → List (String × Value) → Except String Value)
    (infos : List ToolInfo) (t : LCTool) (ht : t ∈ get_tools call_tool infos)
    (args : List (String × Value)) (nm : String) (v : Value)
    (hextra : (nm, v) ∈ args ∧ nm ∉ t.args_schema.map CompiledField.name) :
    t.coroutine args = call_tool t.name args := by
  simp only [get_tools, List.mem_map] at ht
  obtain ⟨info, _, rfl⟩ := ht
  rfl

/-- C3 witness: the undeclared argument verbose reaches the worker. -/
theorem claim_C3_extra_args_passed_through_witness :
    fxWrapped.coroutine fxArgs = fxCallTool fxWrapped.name fxArgs :=
  claim_C3_extra_args_passed_through fxCallTool [fxInfo1] fxWrapped
    (by exact List.mem_singleton.mpr rfl) fxArgs "verbose" (Value.bool true)
    ⟨by simp [fxArgs], by decide⟩

/-- C6: within a multi-call turn, a call whose invocation raises yields its
error ToolResult while every sibling call is still executed and yields its
own result — one result per call, the turn is never aborted. -/
theorem claim_C6_failure_isolated (tools : List LCTool) (c : String)
    (calls : List ToolCall) (i : Nat) (tc : ToolCall) (t : LCTool) (e : String)
    (hget : calls[i]? = some tc)
    (hres : resolveTool tools tc.name = some t)
    (hfail : t.coroutine tc.args = Except.error e)
    (h2 : 2 ≤ calls.length) :
    (execute_tools tools (Message.ai c calls)).length = calls.length
    ∧ (execute_tools tools (Message.ai c calls))[i]?
        = some (Message.tool tc.id tc.name
            (Value.str ("Error executing tool " ++ tc.name ++ ": " ++ e)))
    ∧ ∀ (j : Nat) (tcj : ToolCall), calls[j]? = some tcj →
        (execute_tools tools (Message.ai c calls))[j]?
          = some (executeToolCall tools tcj) := by
  refine ⟨by simp [execute_tools, messageToolCalls], ?_, ?_⟩
  · simp [execute_tools, messageToolCalls, List.getElem?_map, hget,
      executeToolCall, hres, hfail, pyStr]
  · intro j tcj hj
    simp [execute_tools, messageToolCalls, List.getElem?_map, hj]

/-- C6 witness: a two-call turn in which the second call raises. -/
theorem claim_C6_failure_isolated_witness :
    (execute_tools [fxAlpha, fxBeta] (Message.ai "" [fxCallA, fxCallB])).length
        = [fxCallA, fxCallB].length
    ∧ (execute_tools [fxAlpha, fxBeta] (Message.ai "" [fxCallA, fxCallB]))[1]?
        = some (Message.tool fxCallB.id fxCallB.name
            (Value.str ("Error executing tool " ++ fxCallB.name ++ ": " ++ "boom")))
    ∧ ∀ (j : Nat) (tcj : ToolCall), [fxCallA, fxCallB][j]? = some tcj →
        (execute_tools [fxAlpha, fxBeta] (Message.ai "" [fxCallA, fxCallB]))[j]?
          = some (executeToolCall [fxAlpha, fxBeta] tcj) :=
  claim_C6_failure_isolated [fxAlpha, fxBeta] "" [fxCallA, fxCallB] 1 fxCallB
    fxBeta "boom" rfl rfl rfl (by decide)

/-- C8: invoke leaves the previous conversation history unchanged and in
order as a prefix, appends the new user message, and then appends only this
turn's assistant responses and tool observations. -/
theorem claim_C8_history_append_only (llm : List Message → AIResponse)
    (tools : List LCTool) (fuel : Nat) (hist : List Message) (user_input : String) :
    ∃ turn : List Message,
      (invoke llm tools fuel hist user_input).1
        = hist ++ Message.human user_input :: turn
      ∧ ∀ m ∈ turn,
          (∃ c cs, m = Message.ai c cs) ∨ ∃ cid nm v, m = Message.tool cid nm v := by
  cases hrun : runGraph llm tools fuel (hist ++ [Message.human user_input]) with
  | none =>
      refine ⟨[], ?_, by intro m hm; simp at hm⟩
      simp [invoke, hrun]
  | some finalMessages =>
      obtain ⟨suffix, hfin, hmem⟩ :=
        runGraph_suffix llm tools fuel (hist ++ [Message.human user_input])
          finalMessages hrun
      refine ⟨suffix, ?_, hmem⟩
      simp [invoke, hrun, hfin, List.drop_left]

/-- C9: a discovered parameter not listed in the schema's required array
compiles to an optional field whose default is None — any default declared
in the worker's schema is ignored. -/
theorem claim_C9_schema_defaults_dropped (properties : List (String × FieldDef))
    (required : List String) (i : Nat) (nm : String) (fd : FieldDef)
    (hget : properties[i]? = some (nm, fd)) (hopt : nm ∉ required) :
    (compileFields properties required)[i]?
      = some { name := nm, type := pythonTypeFor (fd.type.getD "string"),
               required := false, default := some Value.none } := by
  simp [compileFields, List.getElem?_map, hget, hopt]

/-- C9 witness: a schema-declared default of 7 is replaced by None. -/
theorem claim_C9_schema_defaults_dropped_witness :
    (compileFields [("count", { type := some "integer", default := some (Value.int 7) })]
        ["name"])[0]?
      = some { name := "count", type := PyType.int,
               required := false, default := some Value.none } :=
  claim_C9_schema_defaults_dropped
    [("count", { type := some "integer", default := some (Value.int 7) })]
    ["name"] 0 "count" { type := some "integer", default := some (Value.int 7) }
    rfl (by decide)

/-- C10: every message the tools node appends is a ToolMessage whose content
is a string — the str() conversion at the append site — and a successful
invocation returning an arbitrary structured value v records exactly
str(v). -/
theorem claim_C10_content_stringified (tools : List LCTool) (lm m : Message)
    (tc : ToolCall) (t : LCTool) (v : Value)
    (hm : m ∈ execute_tools tools lm)
    (hres : resolveTool tools tc.name = some t)
    (hok : t.coroutine tc.args = Except.ok v) :
    (∃ cid nm s, m = Message.tool cid nm (Value.str s))
    ∧ executeToolCall tools tc = Message.tool tc.id tc.name (Value.str (pyStr v)) := by
  refine ⟨execute_tools_mem_tool tools lm m hm, ?_⟩
  simp [executeToolCall, hres, hok]

/-- C10 witness: a structured object output is recorded via str(). -/
theorem claim_C10_content_stringified_witness :
    (∃ cid nm s,
        Message.tool "call-a" "alpha" (Value.str "alpha-ok")
          = Message.tool cid nm (Value.str s))
    ∧ executeToolCall [fxAlpha, fxWrapped] fxCallC
        = Message.tool fxCallC.id fxCallC.name
            (Value.str (pyStr (Value.obj
              [("tool", Value.str "get_open_ports"), ("argc", Value.int 0)]))) :=
  claim_C10_content_stringified [fxAlpha, fxWrapped]
    (Message.ai "" [fxCallA]) (Message.tool "call-a" "alpha" (Value.str "alpha-ok"))
    fxCallC fxWrapped
    (Value.obj [("tool", Value.str "get_open_ports"), ("argc", Value.int 0)])
    (by exact List.mem_singleton.mpr rfl) rfl rfl

theorem kindMatches_coerce (t : PyType) (v : Value) (h : kindMatches t v = true) :
    ∃ v2, coerce t v = some v2 := by
  cases t <;> cases v <;> (try simp [kindMatches] at h) <;> exact ⟨_, rfl⟩

theorem validateFields_ok (specs : List CompiledField) (args : List (String × Value))
    (hall : ∀ f ∈ specs,
      Option.any (kindMatches f.type) (lookupArg args f.name) = true) :
    ∃ out, validateFields specs args = Except.ok out := by
  induction specs with
  | nil => exact ⟨[], rfl⟩
  | cons f rest ih =>
      have hf := hall f (List.mem_cons_self f rest)
      cases hlook : lookupArg args f.name with
      | none => rw [hlook] at hf; simp [Option.any] at hf
      | some v =>
          rw [hlook] at hf
          have hk : kindMatches f.type v = true := by simpa [Option.any] using hf
          obtain ⟨v2, hc⟩ := kindMatches_coerce f.type v hk
          obtain ⟨out, hout⟩ := ih fun g hg => hall g (List.mem_cons_of_mem f hg)
          refine ⟨(f.name, v2) :: out, ?_⟩
          simp [validateFields, hlook, hc, hout, Except.map]

theorem validateFields_missing (specs : List CompiledField)
    (args : List (String × Value)) (f : CompiledField) (hf : f ∈ specs)
    (hreq : f.required = true) (hnone : lookupArg args f.name = Option.none) :
    ∃ e, validateFields specs args = Except.error e := by
  induction specs with
  | nil => simp at hf
  | cons g rest ih =>
      rcases List.mem_cons.mp hf with rfl | hmem
      · exact ⟨ValidationError.missingRequired f.name,
          by simp [validateFields, hnone, hreq]⟩
      · cases hlook : lookupArg args g.name with
        | some v =>
            cases hc : coerce g.type v with
            | none =>
                exact ⟨ValidationError.wrongKind g.name,
                  by simp [validateFields, hlook, hc]⟩
            | some v2 =>
                obtain ⟨e, he⟩ := ih hmem
                exact ⟨e, by simp [validateFields, hlook, hc, he, Except.map]⟩
        | none =>
            by_cases hg : g.required = true
            · exact ⟨ValidationError.missingRequired g.name,
                by simp [validateFields, hlook, hg]⟩
            · obtain ⟨e, he⟩ := ih hmem
              exact ⟨e, by simp [validateFields, hlook, hg, he, Except.map]⟩

/-- C4: validation of an argument mapping against a compiled contract — a
fully-specified set whose present values carry their declared kinds
validates; any absent required parameter makes validation fail with a
ValidationError; a numeric string coerces unambiguously to a declared
integer kind while a non-numeric string for it is rejected. -/
theorem claim_C4_validation_contract (specs : List CompiledField)
    (args : List (String × Value)) :
    ((∀ f ∈ specs,
        Option.any (kindMatches f.type) (lookupArg args f.name) = true) →
      ∃ out, validateFields specs args = Except.ok out)
    ∧ (∀ f ∈ specs, f.required = true → lookupArg args f.name = Option.none →
        ∃ e, validateFields specs args = Except.error e)
    ∧ validateFields
        [{ name := "count", type := PyType.int, required := true,
           default := Option.none }] [("count", Value.str "5")]
        = Except.ok [("count", Value.int 5)]
    ∧ validateFields
        [{ name := "count", type := PyType.int, required := true,
           default := Option.none }] [("count", Value.str "five")]
        = Except.error (ValidationError.wrongKind "count") :=
  ⟨validateFields_ok specs args,
   fun f hf hreq hnone => validateFields_missing specs args f hf hreq hnone,
   rfl, rfl⟩

/-- C4 witness: a fully-specified valid set validates; dropping the required
parameter fails. -/
theorem claim_C4_validation_contract_witness :
    (∃ out, validateFields
        [{ name := "count", type := PyType.int, required := true,
           default := Option.none }] [("count", Value.int 7)] = Except.ok out)
    ∧ ∃ e, validateFields
        [{ name := "count", type := PyType.int, required := true,
           default := Option.none }] [] = Except.error e :=
  ⟨(claim_C4_validation_contract
      [{ name := "count", type := PyType.int, required := true,
         default := Option.none }] [("count", Value.int 7)]).1 (by decide),
   (claim_C4_validation_contract
      [{ name := "count", type := PyType.int, required := true,
         default := Option.none }] []).2.1
      { name := "count", type := PyType.int, required := true,
        default := Option.none }
      (List.mem_singleton.mpr rfl) rfl rfl⟩
